import Mathlib

/-!
Verification of the guild-queue state machine of `src/struct/Queue.ts`
(DisTube `Queue` class).

The embedding below is a shallow model of the `Queue` class: the mutable
fields of a `Queue` object become a `QueueState` structure, every command
becomes a pure function from `QueueState` to a result paired with the
successor state, and thrown `DisTubeError`s become `Except` errors.  A
command that throws after having already mutated state (JS mutation
persists past a throw) returns the mutated state alongside the error, so
each command has type `QueueState → Except DisTubeErrorKind α × QueueState`.

External collaborators are modelled at their interface boundary only:
the related-song plugin is a parameter `rel : Song → List Song`
(`_getPluginFromSong` returning no plugin is the constant-empty function),
the random source of `shuffle` is a parameter `rand : Nat → Nat`, and the
voice transport (`voice.stop/pause/unpause`), event emission and manager
deregistration are effect-free in this model since no claim observes them.
-/

/-- Error kinds of `DisTubeError` as thrown by `Queue` (`throw new
DisTubeError(...)` call sites in `src/struct/Queue.ts`). -/
inductive DisTubeErrorKind where
  | QUEUE_STOPPED
  | INVALID_TYPE
  | PAUSED
  | RESUMED
  | NO_UP_NEXT
  | NO_PREVIOUS
  | NO_SONG_POSITION
  | DISABLED_OPTION
  | NO_PLAYING_SONG
  | NO_RELATED
  | NUMBER_COMPARE
deriving DecidableEq, Repr

/-- A `Song`: the queue code reads its `id`, `metadata`, `member`,
`stream.playFromSource` and `stream.song` fields (the latter is itself a
`Song`, hence the nested inductive).  Identifiers, metadata and guild
members are opaque to the queue and modelled as `Nat`. -/
inductive Song where
  | mk (id : Nat) (duration : Nat) (metadata : Nat) (member : Option Nat)
      (playFromSource : Bool) (streamSong : Option Song)

def Song.id : Song → Nat
  | .mk i _ _ _ _ _ => i

def Song.duration : Song → Nat
  | .mk _ d _ _ _ _ => d

def Song.metadata : Song → Nat
  | .mk _ _ m _ _ _ => m

def Song.member : Song → Option Nat
  | .mk _ _ _ mb _ _ => mb

def Song.playFromSource : Song → Bool
  | .mk _ _ _ _ p _ => p

def Song.streamSong : Song → Option Song
  | .mk _ _ _ _ _ s => s

/-- `song.metadata = v` (JS field assignment, returning the updated song). -/
def Song.setMetadata : Song → Nat → Song
  | .mk i d _ mb p s, m => .mk i d m mb p s

/-- `song.member = v` (JS field assignment, returning the updated song). -/
def Song.setMember : Song → Option Nat → Song
  | .mk i d m _ p s, mb => .mk i d m mb p s

/-- `({ id: s.id }) as Song` in `Queue.jump`: a stub retaining only the id;
the remaining JS fields are absent and take default values here. -/
def stubSong (s : Song) : Song :=
  .mk s.id 0 0 none false none

/-- `RepeatMode` enum: `DISABLED = 0`. -/
def RepeatMode.DISABLED : Nat := 0

/-- `RepeatMode` enum: `SONG = 1`. -/
def RepeatMode.SONG : Nat := 1

/-- `RepeatMode` enum: `QUEUE = 2`. -/
def RepeatMode.QUEUE : Nat := 2

/-- The mutable state of a `Queue` object.  `repeatMode` keeps the source
enum's load-bearing numeric encoding (`0/1/2`; the code compares against
the literal `2` and computes `(repeatMode + 1) % 3`).  `next`/`prev` model
the `_next`/`_prev` one-shot flags, `beginTime` models `_beginTime`,
`savePreviousSongs` models `options.savePreviousSongs`, and `clientMember`
models the `clientMember` getter (`undefined` when the bot member is
absent). -/
structure QueueState where
  songs : List Song
  previousSongs : List Song
  stopped : Bool
  playing : Bool
  paused : Bool
  repeatMode : Nat
  autoplay : Bool
  beginTime : Int
  next : Bool
  prev : Bool
  savePreviousSongs : Bool
  clientMember : Option Nat

/-- The first argument of `addToQueue` is `Song | Song[]`; `songList`
flattens it to the list of songs it denotes. -/
def songList : Song ⊕ List Song → List Song
  | .inl s => [s]
  | .inr l => l

/-- `l.splice(pos, 0, ...items)` insertion semantics for `0 ≤ pos`
(a start beyond the length is clamped to the length, as `take`/`drop`
clamp). -/
def spliceInsert (l : List α) (pos : Nat) (items : List α) : List α :=
  l.take pos ++ items ++ l.drop pos

/-- The `!song || (Array.isArray(song) && !song.length)` validation of
`addToQueue`: with a non-nullable argument only the empty-array disjunct
can hold. -/
def invalidSongInput : Song ⊕ List Song → Bool
  | .inr l => l.isEmpty
  | .inl _ => false

/-- `Queue.addToQueue(song, position = 0)`.  `position : Int` already
carries the `typeof position === "number" && Number.isInteger(position)`
validation, so only the stopped check and the empty-array check can fail. -/
def addToQueue (q : QueueState) (song : Song ⊕ List Song) (position : Int) :
    Except DisTubeErrorKind Unit × QueueState :=
  if q.stopped then (.error .QUEUE_STOPPED, q)
  else if invalidSongInput song then (.error .INVALID_TYPE, q)
  else if position ≤ 0 then (.ok (), { q with songs := q.songs ++ songList song })
  else (.ok (), { q with songs := spliceInsert q.songs position.toNat (songList song) })

/-- `Queue.pause()` (body inside the task-queue critical section). -/
def pause (q : QueueState) : Except DisTubeErrorKind Unit × QueueState :=
  if q.paused then (.error .PAUSED, q)
  else (.ok (), { q with paused := true })

/-- `Queue.resume()` (body inside the task-queue critical section). -/
def resume (q : QueueState) : Except DisTubeErrorKind Unit × QueueState :=
  if !q.paused then (.error .RESUMED, q)
  else (.ok (), { q with paused := false })

/-- One lookup round of `Queue.#getRelatedSong` followed by the
`.filter(s => !prevIds.includes(s.id))` applied at both call sites of
`Queue.addRelatedSong`. -/
def filteredRelated (rel : Song → List Song) (prevIds : List Nat) (s : Song) : List Song :=
  (rel s).filter (fun t => !(prevIds.contains t.id))

/-- The candidate list `relatedSongs` of `Queue.addRelatedSong` after the
optional retry: when the first filtered lookup is empty and the current
song does not play from source, the filtered related songs of
`current.stream.song` (when present) are pushed onto the empty list. -/
def relatedCandidates (rel : Song → List Song) (prevIds : List Nat) (current : Song) :
    List Song :=
  if (filteredRelated rel prevIds current).isEmpty && !current.playFromSource then
    match current.streamSong with
    | some alt => filteredRelated rel prevIds current ++ filteredRelated rel prevIds alt
    | none => filteredRelated rel prevIds current
  else filteredRelated rel prevIds current

/-- `Queue.addRelatedSong()`: picks the head candidate, copies the current
song's `metadata` and sets `member` to `clientMember`, then appends it via
`addToQueue` (default position `0`). -/
def addRelatedSong (rel : Song → List Song) (q : QueueState) :
    Except DisTubeErrorKind Song × QueueState :=
  match q.songs.head? with
  | none => (.error .NO_PLAYING_SONG, q)
  | some current =>
    match (relatedCandidates rel (q.previousSongs.map Song.id) current).head? with
    | none => (.error .NO_RELATED, q)
    | some song0 =>
      match addToQueue q
          (.inl ((song0.setMetadata current.metadata).setMember q.clientMember)) 0 with
      | (.error e, q2) => (.error e, q2)
      | (.ok _, q2) => (.ok ((song0.setMetadata current.metadata).setMember q.clientMember), q2)

/-- `Queue.skip()` (body inside the task-queue critical section):
with at most one song left it either autoplays one related song or throws
`NO_UP_NEXT`; then returns `songs[1]`, sets the `_next` intent and stops
the voice transport. -/
def skip (rel : Song → List Song) (q : QueueState) :
    Except DisTubeErrorKind (Option Song) × QueueState :=
  match (if q.songs.length ≤ 1 then
           (if q.autoplay then
              (match addRelatedSong rel q with
               | (.error e, q1) => (.error e, q1)
               | (.ok _, q1) => (.ok (), q1))
            else (.error .NO_UP_NEXT, q))
         else (.ok (), q) : Except DisTubeErrorKind Unit × QueueState) with
  | (.error e, q1) => (.error e, q1)
  | (.ok _, q1) => (.ok q1.songs[1]?, { q1 with next := true })

/-- `Queue.previous()` (body inside the task-queue critical section).
With repeat mode `QUEUE` the code reads `songs[songs.length - 1]` (which is
`undefined` on an empty list, hence the `Option` result), otherwise the
last entry of `previousSongs`. -/
def previous (q : QueueState) : Except DisTubeErrorKind (Option Song) × QueueState :=
  if !q.savePreviousSongs then (.error .DISABLED_OPTION, q)
  else if q.previousSongs.length = 0 ∧ q.repeatMode ≠ RepeatMode.QUEUE then
    (.error .NO_PREVIOUS, q)
  else
    (.ok (if q.repeatMode = 2 then q.songs[q.songs.length - 1]?
          else q.previousSongs[q.previousSongs.length - 1]?),
     { q with prev := true })

/-- One iteration of the Fisher-Yates loop body
`[songs[i], songs[j]] = [songs[j], songs[i]]`.  In the source both indices
are always in bounds (`j = floor(random() * (i + 1)) ≤ i < length`); out of
bounds the model swaps nothing. -/
def listSwap (l : List α) (i j : Nat) : List α :=
  match l[i]?, l[j]? with
  | some a, some b => (l.set i b).set j a
  | _, _ => l

/-- The Fisher-Yates loop of `Queue.shuffle` on the headless list:
`for (let i = length - 1; i > 0; i--) swap(i, rand i)`, descending from the
first argument down to index `1`. -/
def fisherYates (rand : Nat → Nat) : Nat → List Song → List Song
  | 0, l => l
  | i + 1, l => fisherYates rand i (listSwap l (i + 1) (rand (i + 1)))

/-- `Queue.shuffle()` (body inside the task-queue critical section):
shift the playing song (empty queue: return unchanged), Fisher-Yates the
remainder, unshift the playing song back. -/
def shuffle (rand : Nat → Nat) (q : QueueState) :
    Except DisTubeErrorKind Unit × QueueState :=
  match q.songs with
  | [] => (.ok (), q)
  | playing :: rest =>
    (.ok (), { q with songs := playing :: fisherYates rand (rest.length - 1) rest })

/-- `Queue.jump(position)` (body inside the task-queue critical section).
`position : Int` already carries the `typeof position === "number"`
validation.  Forward: `songs.splice(position - 1)` keeps the tail as the
new upcoming list and pushes the removed head part (stubbed when history
retention is off) onto `previousSongs`.  Backward (`position ≤ -2`):
`previousSongs.splice(position + 1)` (a negative start counts from the
end) moves the most recent `|position| - 1` history entries to the front
of `songs`; `position = -1` moves nothing.  Returns `nextSongs[1]`
(forward) or the new last history entry (backward). -/
def jump (q : QueueState) (position : Int) :
    Except DisTubeErrorKind (Option Song) × QueueState :=
  if position = 0 ∨ position > (q.songs.length : Int) ∨
      -position > (q.previousSongs.length : Int) then
    (.error .NO_SONG_POSITION, q)
  else if position > 0 then
    let nextSongs := q.songs.drop (position.toNat - 1)
    let movedOut := q.songs.take (position.toNat - 1)
    let q2 := { q with
      songs := nextSongs
      previousSongs := q.previousSongs ++
        (if q.savePreviousSongs then movedOut else movedOut.map stubSong)
      next := true }
    (.ok nextSongs[1]?, q2)
  else if !q.savePreviousSongs then (.error .DISABLED_OPTION, q)
  else
    let q2 :=
      if position ≠ -1 then
        let start := q.previousSongs.length - ((-position).toNat - 1)
        { q with
          songs := q.previousSongs.drop start ++ q.songs
          previousSongs := q.previousSongs.take start }
      else q
    (.ok q2.previousSongs[q2.previousSongs.length - 1]?, { q2 with prev := true })

/-- `Queue.setRepeatMode(mode?)`.  The argument is `Option Int`: `none` is
`undefined`, and an `Int` outside `{0, 1, 2}` is a value failing the
`Object.values(RepeatMode).includes(mode)` check. -/
def setRepeatMode (q : QueueState) (mode : Option Int) :
    Except DisTubeErrorKind Nat × QueueState :=
  match mode with
  | none =>
    let m := (q.repeatMode + 1) % 3
    (.ok m, { q with repeatMode := m })
  | some m =>
    if ¬ (m = 0 ∨ m = 1 ∨ m = 2) then (.error .INVALID_TYPE, q)
    else if (q.repeatMode : Int) = m then
      (.ok RepeatMode.DISABLED, { q with repeatMode := RepeatMode.DISABLED })
    else (.ok m.toNat, { q with repeatMode := m.toNat })

/-- `Queue.play(emitPlaySong)`: throws `QUEUE_STOPPED` when stopped, else
marks the queue playing and starts the transport (external). -/
def play (q : QueueState) (emitPlaySong : Bool) : Except DisTubeErrorKind Unit × QueueState :=
  if q.stopped then (.error .QUEUE_STOPPED, q)
  else (.ok (), { q with playing := true })

/-- `Queue.seek(time)`.  `time : Int` carries the `typeof` check; negative
time throws `NUMBER_COMPARE` (the `isNaN` disjunct has no counterpart on
`Int`).  Note `_beginTime` is assigned before `play` is called, so the
mutation survives a `QUEUE_STOPPED` throw. -/
def seek (q : QueueState) (time : Int) : Except DisTubeErrorKind Unit × QueueState :=
  if time < 0 then (.error .NUMBER_COMPARE, q)
  else
    let q1 := { q with beginTime := time }
    match play q1 false with
    | (.error e, q2) => (.error e, q2)
    | (.ok _, q2) => (.ok (), q2)

/-- `Queue.remove()`: clears both song lists, resets the flags and marks
the queue stopped.  Listener detaching, manager deregistration and the
`DELETE_QUEUE` event are external effects outside this state model. -/
def remove (q : QueueState) : QueueState :=
  { q with playing := false, paused := false, stopped := true,
           songs := [], previousSongs := [] }

/-- `Queue.stop()` (body inside the task-queue critical section): stops the
transport (external) and performs `remove()`. -/
def stop (q : QueueState) : QueueState :=
  remove q

/-- `Queue.toggleAutoplay()`: flips the flag and returns the new value. -/
def toggleAutoplay (q : QueueState) : Bool × QueueState :=
  (!q.autoplay, { q with autoplay := !q.autoplay })

/-- Modelled from the spec: the SerialTaskQueue (`TaskQueue` from
`src/core`, whose source is not included under `src/`).  Per the spec it is
"an ordered list of pending admission tickets"; at most one ticket is
active at a time, tickets are admitted strictly in arrival order, and a
ticket stays active until its holder releases it.  The head of `tickets`
is the active ticket. -/
structure TaskQueue where
  tickets : List Nat

/-- Modelled from the spec: `queuing()` appends a pending ticket (it is
admitted once every earlier ticket has released). -/
def TaskQueue.queuing (tq : TaskQueue) (t : Nat) : TaskQueue :=
  { tickets := tq.tickets ++ [t] }

/-- Modelled from the spec: the currently admitted (active) ticket, if
any. -/
def TaskQueue.active (tq : TaskQueue) : Option Nat :=
  tq.tickets.head?

/-- Modelled from the spec: `resolve()` releases the active ticket and
admits the next-oldest pending ticket. -/
def TaskQueue.resolve (tq : TaskQueue) : TaskQueue :=
  { tickets := tq.tickets.tail }

/-- `resolve` iterated `k` times. -/
def TaskQueue.resolveN (tq : TaskQueue) : Nat → TaskQueue
  | 0 => tq
  | k + 1 => (tq.resolve).resolveN k

/-- `queuing` iterated over a list of tickets (a set of concurrently
issued commands, in issuance order). -/
def TaskQueue.queuingAll (tq : TaskQueue) : List Nat → TaskQueue
  | [] => tq
  | t :: ts => (tq.queuing t).queuingAll ts

/-- The mutating commands of `Queue` named by the spec's command table. -/
inductive Command where
  | addToQueue
  | pause
  | resume
  | skip
  | previous
  | shuffle
  | jump
  | setRepeatMode
  | seek
  | stop
deriving DecidableEq, Repr

/-- Whether the command's body in `src/struct/Queue.ts` begins with
`await this._taskQueue.queuing()` (acquisition of the serial task queue).
Transcribed from the source: the `async` commands acquire it; the
synchronous `addToQueue`, `setRepeatMode` and `seek` never touch
`_taskQueue`. -/
def acquiresTaskQueue : Command → Bool
  | .addToQueue => false
  | .pause => true
  | .resume => true
  | .skip => true
  | .previous => true
  | .shuffle => true
  | .jump => true
  | .setRepeatMode => false
  | .seek => false
  | .stop => true

/-- Whether the command's body in `src/struct/Queue.ts` runs
`this._taskQueue.resolve()` in a `finally` block, i.e. releases the ticket
on every exit path.  Transcribed from the source: exactly the commands
that acquire the ticket release it this way. -/
def releasesOnAllExits : Command → Bool
  | .addToQueue => false
  | .pause => true
  | .resume => true
  | .skip => true
  | .previous => true
  | .shuffle => true
  | .jump => true
  | .setRepeatMode => false
  | .seek => false
  | .stop => true

theorem head?_drop_eq (l : List α) (k : Nat) : (l.drop k).head? = l[k]? := by
  induction l generalizing k with
  | nil => simp
  | cons a t ih =>
    cases k with
    | zero => simp
    | succ k => simpa using ih k

theorem resolveN_tickets (ts : List Nat) (k : Nat) :
    (TaskQueue.resolveN ⟨ts⟩ k).tickets = ts.drop k := by
  induction k generalizing ts with
  | zero => simp [TaskQueue.resolveN]
  | succ k ih =>
    simp [TaskQueue.resolveN, TaskQueue.resolve, ih, List.tail_drop]

theorem queuingAll_tickets (tq : TaskQueue) (ts : List Nat) :
    (tq.queuingAll ts).tickets = tq.tickets ++ ts := by
  induction ts generalizing tq with
  | nil => simp [TaskQueue.queuingAll]
  | cons t ts ih =>
    simp [TaskQueue.queuingAll, TaskQueue.queuing, ih]

theorem Song.metadata_setMetadata (s : Song) (m : Nat) : (s.setMetadata m).metadata = m := by
  cases s; rfl

theorem Song.metadata_setMember (s : Song) (mb : Option Nat) :
    (s.setMember mb).metadata = s.metadata := by
  cases s; rfl

theorem Song.member_setMember (s : Song) (mb : Option Nat) : (s.setMember mb).member = mb := by
  cases s; rfl

theorem Song.id_setMetadata (s : Song) (m : Nat) : (s.setMetadata m).id = s.id := by
  cases s; rfl

theorem Song.id_setMember (s : Song) (mb : Option Nat) : (s.setMember mb).id = s.id := by
  cases s; rfl

theorem cons_set_perm : ∀ (t : List α) (k : Nat) (a : α) (hk : k < t.length),
    List.Perm (t.get ⟨k, hk⟩ :: t.set k a) (a :: t)
  | b :: u, 0, a, _ => List.Perm.swap a b u
  | b :: u, k + 1, a, hk => by
    have ih := cons_set_perm u k a (by simpa using hk)
    have s1 : List.Perm (u.get ⟨k, by simpa using hk⟩ :: b :: u.set k a)
        (b :: u.get ⟨k, by simpa using hk⟩ :: u.set k a) := List.Perm.swap b _ _
    have s2 : List.Perm (b :: u.get ⟨k, by simpa using hk⟩ :: u.set k a) (b :: a :: u) :=
      ih.cons b
    have s3 : List.Perm (b :: a :: u) (a :: b :: u) := List.Perm.swap a b u
    simpa using (s1.trans (s2.trans s3))

theorem set_set_perm : ∀ (l : List α) (i j : Nat) (hi : i < l.length) (hj : j < l.length),
    List.Perm ((l.set i (l.get ⟨j, hj⟩)).set j (l.get ⟨i, hi⟩)) l
  | b :: u, 0, 0, _, _ => by simp
  | b :: u, 0, k + 1, _, hj => by
    simpa using cons_set_perm u k b (by simpa using hj)
  | b :: u, k + 1, 0, hi, _ => by
    simpa using cons_set_perm u k b (by simpa using hi)
  | b :: u, k + 1, m + 1, hi, hj => by
    simpa using (set_set_perm u k m (by simpa using hi) (by simpa using hj)).cons b

theorem listSwap_perm (l : List α) (i j : Nat) : List.Perm (listSwap l i j) l := by
  unfold listSwap
  split
  · next a b hia hjb =>
    obtain ⟨hi, ha⟩ := List.getElem?_eq_some.mp hia
    obtain ⟨hj, hb⟩ := List.getElem?_eq_some.mp hjb
    subst ha hb
    simpa using set_set_perm l i j hi hj
  · exact List.Perm.refl l

theorem fisherYates_perm (rand : Nat → Nat) (n : Nat) (l : List Song) :
    List.Perm (fisherYates rand n l) l := by
  induction n generalizing l with
  | zero => exact List.Perm.refl l
  | succ n ih => exact ((ih _).trans (listSwap_perm l (n + 1) (rand (n + 1))))

theorem mem_filteredRelated (rel : Song → List Song) (prevIds : List Nat) (s t : Song)
    (h : t ∈ filteredRelated rel prevIds s) : prevIds.contains t.id = false := by
  unfold filteredRelated at h
  have := (List.mem_filter.mp h).2
  simpa using this

theorem mem_relatedCandidates (rel : Song → List Song) (prevIds : List Nat) (cur t : Song)
    (h : t ∈ relatedCandidates rel prevIds cur) : prevIds.contains t.id = false := by
  unfold relatedCandidates at h
  split at h
  · split at h
    · rcases List.mem_append.mp h with h1 | h1 <;>
        exact mem_filteredRelated rel prevIds _ t h1
    · exact mem_filteredRelated rel prevIds cur t h
  · exact mem_filteredRelated rel prevIds cur t h

/-- The head of a list is a member of it. -/
theorem head_mem_of_head?_eq {l : List α} {a : α} (h : l.head? = some a) : a ∈ l := by
  cases l with
  | nil => cases h
  | cons b t =>
    simp only [List.head?_cons, Option.some.injEq] at h
    subst h
    exact List.mem_cons_self _ _

/-- `addToQueue` specialised to a single song (the `Array.isArray` test is
false, so the `INVALID_TYPE` validation never fires). -/
theorem addToQueue_inl (q : QueueState) (s : Song) (p : Int) :
    addToQueue q (.inl s) p =
      if q.stopped then (.error .QUEUE_STOPPED, q)
      else if p ≤ 0 then (.ok (), { q with songs := q.songs ++ [s] })
      else (.ok (), { q with songs := spliceInsert q.songs p.toNat [s] }) := by
  unfold addToQueue
  by_cases hs : q.stopped
  · simp [hs]
  · simp [hs, songList, invalidSongInput]

/-- The error exits of `addRelatedSong` leave the state untouched and never
produce `NO_UP_NEXT`. -/
theorem addRelatedSong_error (rel : Song → List Song) (q : QueueState)
    (e : DisTubeErrorKind) :
    (addRelatedSong rel q).1 = .error e → (addRelatedSong rel q).2 = q ∧ e ≠ .NO_UP_NEXT := by
  unfold addRelatedSong
  split
  · intro h
    cases h
    exact ⟨rfl, by simp⟩
  · split
    · intro h
      cases h
      exact ⟨rfl, by simp⟩
    · split
      · next e1 q2 heq =>
        intro h
        cases h
        rw [addToQueue_inl] at heq
        by_cases hs : q.stopped = true
        · rw [if_pos hs] at heq
          injection heq with h1 h2
          injection h1 with h1
          subst h1
          exact ⟨h2.symm, by simp⟩
        · rw [if_neg hs] at heq
          simp at heq
      · intro h
        cases h

/-- A successful `addRelatedSong` selected the head candidate of
`relatedCandidates` for the current song, stamped it with the current
song's metadata and the client member, and appended it to `songs`. -/
theorem addRelatedSong_ok (rel : Song → List Song) (q : QueueState) (s : Song) :
    (addRelatedSong rel q).1 = .ok s →
    ∃ cur song0, q.songs.head? = some cur ∧
      (relatedCandidates rel (q.previousSongs.map Song.id) cur).head? = some song0 ∧
      s = (song0.setMetadata cur.metadata).setMember q.clientMember ∧
      (addRelatedSong rel q).2 = { q with songs := q.songs ++ [s] } := by
  unfold addRelatedSong
  split
  · intro h
    cases h
  · next cur hcur =>
    split
    · intro h
      cases h
    · next song0 hsong0 =>
      split
      · intro h
        cases h
      · next a q2 heq =>
        intro h
        cases h
        rw [addToQueue_inl] at heq
        by_cases hs : q.stopped = true
        · rw [if_pos hs] at heq
          simp at heq
        · rw [if_neg hs] at heq
          rw [if_pos (by norm_num)] at heq
          injection heq with h1 h2
          exact ⟨cur, song0, hcur, hsong0, rfl, h2.symm⟩

/-- A fresh queue state with the constructor's initial field values
(`savePreviousSongs` is the library's default `true`). -/
def emptyQueue : QueueState :=
  { songs := [], previousSongs := [], stopped := false, playing := false,
    paused := false, repeatMode := 0, autoplay := false, beginTime := 0,
    next := false, prev := false, savePreviousSongs := true, clientMember := none }

def songA : Song := .mk 1 10 0 none true none

def songB : Song := .mk 2 20 0 none true none

def songX : Song := .mk 3 30 0 none true none

/-- A playing queue holding `songA, songB`. -/
def qAB : QueueState := { emptyQueue with songs := [songA, songB], playing := true }

/-- A playing queue holding only `songA` (no up-next song). -/
def qA : QueueState := { emptyQueue with songs := [songA], playing := true }

/-- The error kind of a command result, `none` on success. -/
def errKind (r : Except DisTubeErrorKind α) : Option DisTubeErrorKind :=
  match r with
  | .error e => some e
  | .ok _ => none

/-- C9: `toggleAutoplay` always succeeds (it is a total function on every
state, including stopped ones), flips the `autoplay` flag, returns the new
flag value, is an involution on the state, and changes no field other than
`autoplay`. -/
theorem C9_toggleAutoplay (q : QueueState) :
    (toggleAutoplay q).1 = !q.autoplay ∧
    (toggleAutoplay q).2.autoplay = !q.autoplay ∧
    (toggleAutoplay (toggleAutoplay q).2).2 = q ∧
    (toggleAutoplay q).2 = { q with autoplay := !q.autoplay } := by
  refine ⟨rfl, rfl, ?_, rfl⟩
  cases q
  simp [toggleAutoplay]

/-- C10: with history retention on and repeat mode `QUEUE`, `previous()`
never fails whatever `previousSongs` holds; on an empty `songs` list it
succeeds returning no song. -/
theorem C10_previous (q : QueueState) (h1 : q.savePreviousSongs = true)
    (h2 : q.repeatMode = RepeatMode.QUEUE) :
    (previous q).1 = .ok q.songs[q.songs.length - 1]? ∧
    (q.songs = [] → (previous q).1 = .ok none) := by
  have hmode : q.repeatMode = 2 := h2
  constructor
  · simp [previous, h1, hmode, RepeatMode.QUEUE]
  · intro h
    simp [previous, h1, hmode, RepeatMode.QUEUE, h]

theorem C10_previous_witness :
    (previous { emptyQueue with repeatMode := 2, previousSongs := [] }).1 = .ok none :=
  (C10_previous { emptyQueue with repeatMode := 2, previousSongs := [] } rfl rfl).2 rfl

/-- C2 counterexample: on a queue that `remove()` has just torn down,
`pause()` does not fail with `QUEUE_STOPPED` — it succeeds outright,
because `pause` only inspects the `paused` flag (which `remove` reset to
`false`) and never checks `stopped`. -/
theorem C2_counterexample :
    (pause (remove qA)).1 = .ok () ∧
    (pause (remove qA)).1 ≠ .error DisTubeErrorKind.QUEUE_STOPPED ∧
    errKind (pause (remove qA)).1 = none := by
  refine ⟨rfl, ?_, rfl⟩
  intro h
  cases h

/-- C2 amended: after `remove()` both song lists are empty and
`stopped = true`; a subsequent `addToQueue` (or `play`) fails with
`QUEUE_STOPPED`, but the other mutating commands do not consult the
`stopped` flag — in particular `pause` on the torn-down queue succeeds. -/
theorem C2_amended (q : QueueState) (s : Song ⊕ List Song) (p : Int) :
    (remove q).songs = [] ∧
    (remove q).previousSongs = [] ∧
    (remove q).stopped = true ∧
    (addToQueue (remove q) s p).1 = .error DisTubeErrorKind.QUEUE_STOPPED ∧
    (play (remove q) true).1 = .error DisTubeErrorKind.QUEUE_STOPPED ∧
    (pause (remove q)).1 = .ok () := by
  refine ⟨rfl, rfl, rfl, ?_, rfl, rfl⟩
  simp [addToQueue, remove]

/-- C1 counterexample: `setRepeatMode` (together with `addToQueue` and
`seek`) is a synchronous method whose body never touches `_taskQueue`, so
not every mutating command acquires the serial task queue. -/
theorem C1_counterexample :
    acquiresTaskQueue Command.setRepeatMode = false ∧
    acquiresTaskQueue Command.addToQueue = false ∧
    acquiresTaskQueue Command.seek = false := by
  decide

/-- C1 amended: exactly the asynchronous commands `pause`, `resume`,
`skip`, `previous`, `shuffle`, `jump` and `stop` acquire the serial task
queue before touching state, and each of them (and only they) releases it
in a `finally` block, i.e. on every exit path; and the (spec-modelled)
serial task queue admits concurrently issued tickets strictly in issuance
order: after `k` releases the active ticket is the `k`-th one issued.
`addToQueue`, `setRepeatMode` and `seek` run synchronously without
acquiring it. -/
theorem C1_amended :
    (∀ c : Command, acquiresTaskQueue c = releasesOnAllExits c) ∧
    (∀ c : Command, acquiresTaskQueue c = true ↔
      (c = .pause ∨ c = .resume ∨ c = .skip ∨ c = .previous ∨
       c = .shuffle ∨ c = .jump ∨ c = .stop)) ∧
    (∀ (ts : List Nat) (k : Nat),
      ((TaskQueue.queuingAll ⟨[]⟩ ts).resolveN k).active = ts[k]?) := by
  refine ⟨?_, ?_, ?_⟩
  · intro c
    cases c <;> rfl
  · intro c
    cases c <;> simp [acquiresTaskQueue]
  · intro ts k
    have h1 : TaskQueue.queuingAll ⟨[]⟩ ts = ⟨ts⟩ := by
      have h2 := queuingAll_tickets ⟨[]⟩ ts
      cases hq : TaskQueue.queuingAll ⟨[]⟩ ts
      rw [hq] at h2
      simpa using h2
    rw [h1]
    rw [TaskQueue.active, resolveN_tickets]
    exact head?_drop_eq ts k

/-- C6: `setRepeatMode` with no argument cycles
DISABLED->SONG->QUEUE->DISABLED and returns the new mode; with an argument
equal to the current mode it resets to DISABLED; with a different
recognized argument it sets that mode; and with an argument outside the
three enum values it fails with `INVALID_TYPE` leaving the mode
unchanged. -/
theorem C6_setRepeatMode (q : QueueState) (m : Int) :
    ((q.repeatMode = RepeatMode.DISABLED →
        (setRepeatMode q none).2.repeatMode = RepeatMode.SONG) ∧
     (q.repeatMode = RepeatMode.SONG →
        (setRepeatMode q none).2.repeatMode = RepeatMode.QUEUE) ∧
     (q.repeatMode = RepeatMode.QUEUE →
        (setRepeatMode q none).2.repeatMode = RepeatMode.DISABLED) ∧
     (setRepeatMode q none).1 = .ok (setRepeatMode q none).2.repeatMode) ∧
    ((m = 0 ∨ m = 1 ∨ m = 2) → (q.repeatMode : Int) = m →
      (setRepeatMode q (some m)).2.repeatMode = RepeatMode.DISABLED ∧
      (setRepeatMode q (some m)).1 = .ok RepeatMode.DISABLED) ∧
    ((m = 0 ∨ m = 1 ∨ m = 2) → (q.repeatMode : Int) ≠ m →
      (setRepeatMode q (some m)).2.repeatMode = m.toNat ∧
      (setRepeatMode q (some m)).1 = .ok m.toNat) ∧
    (¬ (m = 0 ∨ m = 1 ∨ m = 2) →
      (setRepeatMode q (some m)).1 = .error DisTubeErrorKind.INVALID_TYPE ∧
      (setRepeatMode q (some m)).2.repeatMode = q.repeatMode) := by
  refine ⟨⟨?_, ?_, ?_, rfl⟩, ?_, ?_, ?_⟩
  · intro h
    simp [setRepeatMode, h, RepeatMode.DISABLED, RepeatMode.SONG]
  · intro h
    simp [setRepeatMode, h, RepeatMode.SONG, RepeatMode.QUEUE]
  · intro h
    simp [setRepeatMode, h, RepeatMode.QUEUE, RepeatMode.DISABLED]
  · intro hvalid heq
    simp [setRepeatMode, hvalid, heq]
  · intro hvalid hne
    simp [setRepeatMode, hvalid, hne]
  · intro hinvalid
    simp [setRepeatMode, hinvalid]

theorem C6_setRepeatMode_witness :
    (setRepeatMode emptyQueue none).2.repeatMode = RepeatMode.SONG ∧
    (setRepeatMode emptyQueue (some 0)).2.repeatMode = RepeatMode.DISABLED ∧
    (setRepeatMode emptyQueue (some 2)).2.repeatMode = 2 ∧
    (setRepeatMode emptyQueue (some 5)).1 = .error DisTubeErrorKind.INVALID_TYPE :=
  ⟨(C6_setRepeatMode emptyQueue 0).1.1 rfl,
   ((C6_setRepeatMode emptyQueue 0).2.1 (by norm_num) (by norm_num [emptyQueue])).1,
   ((C6_setRepeatMode emptyQueue 2).2.2.1 (by norm_num) (by norm_num [emptyQueue])).1,
   ((C6_setRepeatMode emptyQueue 5).2.2.2 (by norm_num)).1⟩

/-- C4 counterexample: on `songs = [songA, songB]`,
`addToQueue(songX, 1)` yields `[songA, songX, songB]` — the new song lands
immediately AFTER the former element at index 0 (= `k - 1`), not
immediately before it as the claim states (which would give
`[songX, songA, songB]`). -/
theorem C4_counterexample :
    ((addToQueue qAB (.inl songX) 1).2.songs.map Song.id) = [1, 3, 2] ∧
    ((qAB.songs.take 0 ++ [songX] ++ qAB.songs.drop 0).map Song.id) = [3, 1, 2] ∧
    ((addToQueue qAB (.inl songX) 1).2.songs.map Song.id) ≠
      ((qAB.songs.take 0 ++ [songX] ++ qAB.songs.drop 0).map Song.id) := by
  refine ⟨rfl, rfl, by decide⟩

/-- C4 amended: `addToQueue` with `position <= 0` appends at the end; with
`position = k` for `1 <= k <= songs.length` it inserts the new song(s) at
index `k` — immediately AFTER the former element at index `k - 1` and
immediately before the former element at index `k` — leaving the elements
at indices below `k` untouched (the result is
`take k ++ new ++ drop k`). -/
theorem C4_amended (q : QueueState) (s : Song ⊕ List Song)
    (h1 : q.stopped = false) (h2 : songList s ≠ []) :
    (∀ p : Int, p ≤ 0 →
      addToQueue q s p = (.ok (), { q with songs := q.songs ++ songList s })) ∧
    (∀ k : Nat, 1 ≤ k → k ≤ q.songs.length →
      addToQueue q s (k : Int) =
        (.ok (), { q with songs := q.songs.take k ++ songList s ++ q.songs.drop k })) := by
  have hval : invalidSongInput s = false := by
    cases s with
    | inl _ => rfl
    | inr l =>
      simp only [songList] at h2
      simpa [invalidSongInput] using h2
  constructor
  · intro p hp
    unfold addToQueue
    rw [if_neg (by simp [h1]), if_neg (by simp [hval]), if_pos hp]
  · intro k hk1 hk2
    unfold addToQueue
    rw [if_neg (by simp [h1]), if_neg (by simp [hval]),
      if_neg (by exact_mod_cast Nat.not_le.mpr hk1)]
    simp [spliceInsert]

theorem C4_amended_witness :
    addToQueue qAB (.inl songX) ((1 : Nat) : Int) =
      (.ok (), { qAB with songs := qAB.songs.take 1 ++ songList (.inl songX) ++ qAB.songs.drop 1 }) ∧
    addToQueue qAB (.inl songX) 0 =
      (.ok (), { qAB with songs := qAB.songs ++ songList (.inl songX) }) :=
  ⟨(C4_amended qAB (.inl songX) rfl (by simp [songList])).2 1 (by norm_num)
      (by norm_num [qAB, emptyQueue]),
   (C4_amended qAB (.inl songX) rfl (by simp [songList])).1 0 (by norm_num)⟩

/-- The successful result song of a song-returning command, mapped to its
id (`none` when the command failed). -/
def okSongId (r : Except DisTubeErrorKind (Option Song) × QueueState) : Option (Option Nat) :=
  match r.1 with
  | .ok s => some (s.map Song.id)
  | .error _ => none

/-- C5 counterexample: on `songs = [songA, songB]`, `jump(1)` returns
`songs[1]` (= `songB`, id 2) — not the current song `songs[0]`
(= `songA`, id 1) as the claim states. -/
theorem C5_counterexample :
    okSongId (jump qAB 1) = some (some 2) ∧
    (qAB.songs[0]?.map Song.id) = some 1 ∧
    okSongId (jump qAB 1) ≠ some (qAB.songs[0]?.map Song.id) := by
  refine ⟨rfl, rfl, by decide⟩

/-- C5 amended: on a queue of length `L`, `jump(L+1)` and `jump(0)` both
fail with `NO_SONG_POSITION`; on a non-empty queue `jump(1)` leaves the
`songs` list unchanged and returns the up-next song `songs[1]` (like
`skip`), not the current song. -/
theorem C5_amended (q : QueueState) :
    (jump q ((q.songs.length : Int) + 1)).1 = .error DisTubeErrorKind.NO_SONG_POSITION ∧
    (jump q 0).1 = .error DisTubeErrorKind.NO_SONG_POSITION ∧
    (q.songs ≠ [] →
      (jump q 1).1 = .ok q.songs[1]? ∧ (jump q 1).2.songs = q.songs) := by
  refine ⟨?_, ?_, ?_⟩
  · unfold jump
    rw [if_pos (Or.inr (Or.inl (by omega)))]
  · unfold jump
    rw [if_pos (Or.inl rfl)]
  · intro hne
    have hlen : 1 ≤ q.songs.length := List.length_pos.mpr hne
    unfold jump
    rw [if_neg (by push_neg; refine ⟨by norm_num, by exact_mod_cast hlen, by omega⟩)]
    rw [if_pos (by norm_num)]
    simp

theorem C5_amended_witness :
    (jump qAB 1).1 = .ok qAB.songs[1]? ∧ (jump qAB 1).2.songs = qAB.songs :=
  (C5_amended qAB).2.2 (by simp [qAB, emptyQueue])

/-- A playing queue holding only `songA`, with autoplay enabled. -/
def qAauto : QueueState := { emptyQueue with songs := [songA], playing := true, autoplay := true }

/-- C3 counterexample: with one song left, autoplay enabled and a
related-song fetch that yields nothing, `skip()` fails with `NO_RELATED`
(propagated from `addRelatedSong`), not `NO_UP_NEXT` as the claim
states. -/
theorem C3_counterexample :
    qAauto.songs.length ≤ 1 ∧ qAauto.autoplay = true ∧
    errKind (skip (fun _ => []) qAauto).1 = some DisTubeErrorKind.NO_RELATED ∧
    errKind (skip (fun _ => []) qAauto).1 ≠ some DisTubeErrorKind.NO_UP_NEXT := by
  refine ⟨by decide, rfl, rfl, by decide⟩

/-- C3 amended: `skip()` fails with `NO_UP_NEXT` exactly when fewer than
two songs remain AND autoplay is disabled (with autoplay enabled the
failure kinds come from `addRelatedSong` instead); every failure leaves
the `songs` list unchanged; and on success the returned song is the
element at index 1 of the (possibly autoplay-extended) songs list. -/
theorem C3_amended (rel : Song → List Song) (q : QueueState) :
    ((skip rel q).1 = .error DisTubeErrorKind.NO_UP_NEXT ↔
      (q.songs.length ≤ 1 ∧ q.autoplay = false)) ∧
    (∀ e, (skip rel q).1 = .error e → (skip rel q).2.songs = q.songs) ∧
    (∀ v, (skip rel q).1 = .ok v → v = (skip rel q).2.songs[1]?) := by
  by_cases hl : q.songs.length ≤ 1
  · by_cases ha : q.autoplay = true
    · rcases hAR : addRelatedSong rel q with ⟨r, q1⟩
      cases r with
      | error e1 =>
        have hq1 : q1 = q := by
          have h2 := (addRelatedSong_error rel q e1 (by rw [hAR])).1
          rw [hAR] at h2
          exact h2
        have hne : e1 ≠ .NO_UP_NEXT := (addRelatedSong_error rel q e1 (by rw [hAR])).2
        have hskip : skip rel q = (.error e1, q1) := by
          unfold skip
          rw [if_pos hl, if_pos ha, hAR]
        refine ⟨?_, ?_, ?_⟩
        · rw [hskip]
          constructor
          · intro h
            injection h with h
            exact absurd h hne
          · rintro ⟨-, ha2⟩
            rw [ha2] at ha
            cases ha
        · intro e h
          rw [hskip, hq1]
        · intro v h
          rw [hskip] at h
          cases h
      | ok s =>
        obtain ⟨cur, song0, hcur, hsong0, hs_eq, hq2⟩ :=
          addRelatedSong_ok rel q s (by rw [hAR])
        rw [hAR] at hq2
        have hskip : skip rel q = (.ok q1.songs[1]?, { q1 with next := true }) := by
          unfold skip
          rw [if_pos hl, if_pos ha, hAR]
        refine ⟨?_, ?_, ?_⟩
        · rw [hskip]
          constructor
          · intro h
            cases h
          · rintro ⟨-, ha2⟩
            rw [ha2] at ha
            cases ha
        · intro e h
          rw [hskip] at h
          cases h
        · intro v h
          rw [hskip] at h ⊢
          injection h with h
          exact h.symm
    · have ha2 : q.autoplay = false := by simpa using ha
      have hskip : skip rel q = (.error .NO_UP_NEXT, q) := by
        unfold skip
        rw [if_pos hl, if_neg ha]
      refine ⟨?_, ?_, ?_⟩
      · rw [hskip]
        exact ⟨fun _ => ⟨hl, ha2⟩, fun _ => rfl⟩
      · intro e h
        rw [hskip]
      · intro v h
        rw [hskip] at h
        cases h
  · have hskip : skip rel q = (.ok q.songs[1]?, { q with next := true }) := by
      unfold skip
      rw [if_neg hl]
    refine ⟨?_, ?_, ?_⟩
    · rw [hskip]
      constructor
      · intro h
        cases h
      · rintro ⟨hl2, -⟩
        exact absurd hl2 hl
    · intro e h
      rw [hskip] at h
      cases h
    · intro v h
      rw [hskip] at h ⊢
      injection h with h
      exact h.symm

theorem C3_amended_witness :
    (skip (fun _ => []) qA).1 = .error DisTubeErrorKind.NO_UP_NEXT ∧
    (skip (fun _ => []) qA).2.songs = qA.songs :=
  ⟨((C3_amended (fun _ => []) qA).1).mpr ⟨by decide, rfl⟩,
   (C3_amended (fun _ => []) qA).2.1 DisTubeErrorKind.NO_UP_NEXT
     (((C3_amended (fun _ => []) qA).1).mpr ⟨by decide, rfl⟩)⟩

/-- C7: `shuffle()` on an empty queue is a no-op returning the queue; on a
non-empty queue it succeeds, keeps the element at index 0 (the playing
song) in place, and permutes the remaining elements without loss or
duplication (for every random source). -/
theorem C7_shuffle (rand : Nat → Nat) (q : QueueState) :
    (q.songs = [] → shuffle rand q = (.ok (), q)) ∧
    (∀ x xs, q.songs = x :: xs →
      (shuffle rand q).1 = .ok () ∧
      (shuffle rand q).2.songs.head? = some x ∧
      List.Perm (shuffle rand q).2.songs.tail xs ∧
      (shuffle rand q).2.previousSongs = q.previousSongs) := by
  constructor
  · intro h
    unfold shuffle
    rw [h]
  · intro x xs h
    have hsh : shuffle rand q =
        (.ok (), { q with songs := x :: fisherYates rand (xs.length - 1) xs }) := by
      unfold shuffle
      rw [h]
    rw [hsh]
    exact ⟨rfl, rfl, fisherYates_perm rand (xs.length - 1) xs, rfl⟩

theorem C7_shuffle_witness :
    (shuffle (fun _ => 0) qAB).2.songs.head? = some songA ∧
    List.Perm (shuffle (fun _ => 0) qAB).2.songs.tail [songB] :=
  ⟨((C7_shuffle (fun _ => 0) qAB).2 songA [songB] rfl).2.1,
   ((C7_shuffle (fun _ => 0) qAB).2 songA [songB] rfl).2.2.1⟩

/-- A playing song whose requester (`member`) is user 7, with metadata 5. -/
def curSong : Song := .mk 10 100 5 (some 7) true none

/-- A related-song candidate with no member set. -/
def relSong : Song := .mk 11 100 0 none true none

/-- A queue playing `curSong` whose bot (client) member is user 99. -/
def q8 : QueueState :=
  { emptyQueue with songs := [curSong], playing := true, clientMember := some 99 }

/-- A related-song provider returning `relSong` for every song. -/
def rel8 : Song → List Song := fun _ => [relSong]

/-- The member stamped on the successful result song of `addRelatedSong`
(`none` when it failed). -/
def okMember (r : Except DisTubeErrorKind Song × QueueState) : Option (Option Nat) :=
  match r.1 with
  | .ok s => some s.member
  | .error _ => none

/-- C8 counterexample: the appended related song's `member` is set to the
CLIENT (bot) member (`this.clientMember`, here user 99), not to the
invoking member recorded on the current song (user 7) as the claim
states. -/
theorem C8_counterexample :
    curSong.member = some 7 ∧
    q8.clientMember = some 99 ∧
    okMember (addRelatedSong rel8 q8) = some (some 99) ∧
    okMember (addRelatedSong rel8 q8) ≠ some curSong.member := by
  refine ⟨rfl, rfl, rfl, by decide⟩


/-- Equation: `addRelatedSong` on an empty queue fails with
`NO_PLAYING_SONG`. -/
theorem addRelatedSong_eq_none (rel : Song → List Song) (q : QueueState)
    (hh : q.songs.head? = none) :
    addRelatedSong rel q = (.error .NO_PLAYING_SONG, q) := by
  unfold addRelatedSong
  split
  · rfl
  · next cur heq =>
    rw [hh] at heq
    cases heq

/-- Equation: `addRelatedSong` with an empty candidate list fails with
`NO_RELATED`. -/
theorem addRelatedSong_eq_noRelated (rel : Song → List Song) (q : QueueState) (cur : Song)
    (hh : q.songs.head? = some cur)
    (hc : (relatedCandidates rel (q.previousSongs.map Song.id) cur).head? = none) :
    addRelatedSong rel q = (.error .NO_RELATED, q) := by
  unfold addRelatedSong
  split
  · next heq =>
    rw [hh] at heq
    cases heq
  · next cur2 heq =>
    rw [hh] at heq
    injection heq with heq
    subst heq
    split
    · rfl
    · next song0 heq2 =>
      rw [hc] at heq2
      cases heq2

/-- Equation: `addRelatedSong` on a stopped queue with a candidate
propagates `QUEUE_STOPPED` from `addToQueue`. -/
theorem addRelatedSong_eq_stopped (rel : Song → List Song) (q : QueueState) (cur song0 : Song)
    (hh : q.songs.head? = some cur)
    (hc : (relatedCandidates rel (q.previousSongs.map Song.id) cur).head? = some song0)
    (hstop : q.stopped = true) :
    addRelatedSong rel q = (.error .QUEUE_STOPPED, q) := by
  unfold addRelatedSong
  split
  · next heq =>
    rw [hh] at heq
    cases heq
  · next cur2 heq =>
    rw [hh] at heq
    injection heq with heq
    subst heq
    split
    · next heq2 =>
      rw [hc] at heq2
      cases heq2
    · next song02 heq2 =>
      rw [hc] at heq2
      injection heq2 with heq2
      subst heq2
      split
      · next e q2 heq3 =>
        rw [addToQueue_inl, if_pos hstop] at heq3
        injection heq3 with h1 h2
        injection h1 with h1
        subst h1 h2
        rfl
      · next a q2 heq3 =>
        rw [addToQueue_inl, if_pos hstop] at heq3
        simp at heq3

/-- Equation: `addRelatedSong` on a live queue with a selected candidate
stamps it and appends it to `songs`. -/
theorem addRelatedSong_eq_ok (rel : Song → List Song) (q : QueueState) (cur song0 : Song)
    (hh : q.songs.head? = some cur)
    (hc : (relatedCandidates rel (q.previousSongs.map Song.id) cur).head? = some song0)
    (hstop : q.stopped = false) :
    addRelatedSong rel q =
      (.ok ((song0.setMetadata cur.metadata).setMember q.clientMember),
       { q with songs :=
          q.songs ++ [(song0.setMetadata cur.metadata).setMember q.clientMember] }) := by
  have hstop2 : ¬ q.stopped = true := by simp [hstop]
  unfold addRelatedSong
  split
  · next heq =>
    rw [hh] at heq
    cases heq
  · next cur2 heq =>
    rw [hh] at heq
    injection heq with heq
    subst heq
    split
    · next heq2 =>
      rw [hc] at heq2
      cases heq2
    · next song02 heq2 =>
      rw [hc] at heq2
      injection heq2 with heq2
      subst heq2
      split
      · next e q2 heq3 =>
        rw [addToQueue_inl, if_neg hstop2, if_pos (Int.le_refl 0)] at heq3
        simp at heq3
      · next a q2 heq3 =>
        rw [addToQueue_inl, if_neg hstop2, if_pos (Int.le_refl 0)] at heq3
        injection heq3 with h1 h2
        subst h2
        rfl

/-- C8 amended: `addRelatedSong` fails with `NO_PLAYING_SONG` exactly when
`songs` is empty; given a current song, it fails with `NO_RELATED` exactly
when the candidate list (the history-filtered related songs of the current
song, retried against the underlying streamed song when the first lookup
is empty and the current song is a source substitution) is empty; on
success the returned song carries the current song's metadata, has its
`member` set to the CLIENT (bot) member — not the invoking member — has an
id not present in the history, and is appended at the end of `songs`. -/
theorem C8_amended (rel : Song → List Song) (q : QueueState) :
    ((addRelatedSong rel q).1 = .error DisTubeErrorKind.NO_PLAYING_SONG ↔ q.songs = []) ∧
    (∀ cur, q.songs.head? = some cur →
      (((addRelatedSong rel q).1 = .error DisTubeErrorKind.NO_RELATED) ↔
        relatedCandidates rel (q.previousSongs.map Song.id) cur = []) ∧
      (∀ s, (addRelatedSong rel q).1 = .ok s →
        s.metadata = cur.metadata ∧
        s.member = q.clientMember ∧
        (q.previousSongs.map Song.id).contains s.id = false ∧
        (addRelatedSong rel q).2.songs = q.songs ++ [s])) := by
  cases hh : q.songs.head? with
  | none =>
    have hnil : q.songs = [] := List.head?_eq_none_iff.mp hh
    have hrun := addRelatedSong_eq_none rel q hh
    constructor
    · rw [hrun]
      exact ⟨fun _ => hnil, fun _ => rfl⟩
    · intro cur hcur
      cases hcur
  | some cur =>
    have hne : q.songs ≠ [] := by
      intro hnil
      rw [hnil] at hh
      cases hh
    cases hc : (relatedCandidates rel (q.previousSongs.map Song.id) cur).head? with
    | none =>
      have hcnil : relatedCandidates rel (q.previousSongs.map Song.id) cur = [] :=
        List.head?_eq_none_iff.mp hc
      have hrun := addRelatedSong_eq_noRelated rel q cur hh hc
      constructor
      · rw [hrun]
        constructor
        · intro h
          injection h with h
          cases h
        · intro h
          exact absurd h hne
      · intro cur2 hcur2
        injection hcur2 with hcur2
        subst hcur2
        constructor
        · rw [hrun]
          exact ⟨fun _ => hcnil, fun _ => rfl⟩
        · intro s h
          rw [hrun] at h
          cases h
    | some song0 =>
      have hcne : relatedCandidates rel (q.previousSongs.map Song.id) cur ≠ [] := by
        intro hnil
        rw [hnil] at hc
        cases hc
      by_cases hstop : q.stopped = true
      · have hrun := addRelatedSong_eq_stopped rel q cur song0 hh hc hstop
        constructor
        · rw [hrun]
          constructor
          · intro h
            injection h with h
            cases h
          · intro h
            exact absurd h hne
        · intro cur2 hcur2
          injection hcur2 with hcur2
          subst hcur2
          constructor
          · rw [hrun]
            constructor
            · intro h
              injection h with h
              cases h
            · intro h
              exact absurd h hcne
          · intro s h
            rw [hrun] at h
            cases h
      · have hstop2 : q.stopped = false := by simpa using hstop
        have hrun := addRelatedSong_eq_ok rel q cur song0 hh hc hstop2
        constructor
        · rw [hrun]
          constructor
          · intro h
            cases h
          · intro h
            exact absurd h hne
        · intro cur2 hcur2
          injection hcur2 with hcur2
          subst hcur2
          constructor
          · rw [hrun]
            constructor
            · intro h
              cases h
            · intro h
              exact absurd h hcne
          · intro s h
            rw [hrun] at h
            injection h with h
            subst h
            refine ⟨?_, ?_, ?_, ?_⟩
            · rw [Song.metadata_setMember, Song.metadata_setMetadata]
            · rw [Song.member_setMember]
            · rw [Song.id_setMember, Song.id_setMetadata]
              exact mem_relatedCandidates rel (q.previousSongs.map Song.id) cur song0
                (head_mem_of_head?_eq hc)
            · rw [hrun]

theorem C8_amended_witness :
    (Song.mk 11 100 5 (some 99) true none).metadata = curSong.metadata ∧
    (Song.mk 11 100 5 (some 99) true none).member = q8.clientMember ∧
    (q8.previousSongs.map Song.id).contains (Song.mk 11 100 5 (some 99) true none).id = false ∧
    (addRelatedSong rel8 q8).2.songs = q8.songs ++ [Song.mk 11 100 5 (some 99) true none] :=
  ((C8_amended rel8 q8).2 curSong rfl).2 (Song.mk 11 100 5 (some 99) true none) rfl
